import Mathlib

/-!
Verification of the structured-output extraction engine of the `mathres`
repository (`src/restructurer_math/tools/json_validator_tool.py` and the
balanced-object scan of `test.py`).  Python values and library calls are
shallowly embedded: strings are lists of characters, `json.loads` is a
recursive-descent parser returning `Option Json`, `int(...)` returns
`Option Int`, and exceptions are modelled by `Option`/branching.
-/

/-- Characters of a Python string. -/
abbrev Chars := List Char

/-- JSON values as produced by `json.loads`.  Numbers are restricted to
integers: no input appearing in the development, and no claim, involves a
non-integer numeral, and the engine only ever coerces numbers with `int`. -/
inductive Json where
  | null : Json
  | bool (b : Bool) : Json
  | int (n : Int) : Json
  | str (s : String) : Json
  | arr (elems : List Json) : Json
  | obj (fields : List (String × Json)) : Json

/-- Whitespace for Python `str.strip` and the regex class backslash-s:
space, tab, newline, carriage return, vertical tab, form feed (given by
character code). -/
def isPyWs (c : Char) : Bool := [32, 9, 10, 13, 11, 12].contains c.toNat

/-- Python `str.strip()` with no arguments. -/
def pyStrip (cs : Chars) : Chars :=
  ((cs.dropWhile isPyWs).reverse.dropWhile isPyWs).reverse

/-- Python `str.strip(ch)` for a single character argument. -/
def stripChar (ch : Char) (cs : Chars) : Chars :=
  ((cs.dropWhile (· == ch)).reverse.dropWhile (· == ch)).reverse

/-- Python `str.rstrip(ch)` for a single character argument. -/
def rstripChar (ch : Char) (cs : Chars) : Chars :=
  (cs.reverse.dropWhile (· == ch)).reverse

/-- Python `str.find(ch)`: index of the first occurrence, `-1` if absent. -/
def pyFind (cs : Chars) (ch : Char) : Int :=
  match cs.findIdx? (· == ch) with
  | some i => (i : Int)
  | none => -1

/-- Python `str.rfind(ch)`: index of the last occurrence, `-1` if absent. -/
def pyRfind (cs : Chars) (ch : Char) : Int :=
  match cs.reverse.findIdx? (· == ch) with
  | some i => ((cs.length - 1 - i : Nat) : Int)
  | none => -1

/-- Python `str.lower()` (ASCII case folding, which covers every string the
code compares). -/
def pyLower (s : String) : String := ⟨s.data.map Char.toLower⟩

/-- Substring containment, Python `needle in hay`. -/
def containsSub (needle hay : Chars) : Bool :=
  (List.range (hay.length + 1)).any (fun i => needle.isPrefixOf (hay.drop i))

/-- Python `text.split(chr(10))`: split at newlines, keeping empty pieces. -/
def splitLines : Chars → List Chars
  | [] => [[]]
  | '\n' :: rest => [] :: splitLines rest
  | c :: rest =>
    match splitLines rest with
    | [] => [[c]]
    | l :: ls => (c :: l) :: ls

/-- Digit-string value, e.g. for Python `int` on a run of digits. -/
def digitsToNat (ds : Chars) : Nat :=
  ds.foldl (fun a c => 10 * a + (c.toNat - 48)) 0

/-- Python `int(s)` on a string: optional surrounding whitespace, optional
sign, then decimal digits only; anything else raises, modelled as `none`.
(Underscore digit separators are not modelled; no input here uses them.) -/
def pyIntOfChars (cs : Chars) : Option Int :=
  match pyStrip cs with
  | '-' :: ds => if ds ≠ [] ∧ ds.all Char.isDigit then some (-(digitsToNat ds : Int)) else none
  | '+' :: ds => if ds ≠ [] ∧ ds.all Char.isDigit then some ((digitsToNat ds : Int)) else none
  | ds => if ds ≠ [] ∧ ds.all Char.isDigit then some ((digitsToNat ds : Int)) else none

/-- Python `int(x)` on a parsed JSON value: ints pass through, booleans map
to 0 and 1, strings are parsed, and everything else raises
(`TypeError`/`ValueError`), modelled as `none`. -/
def pyInt : Json → Option Int
  | Json.int n => some n
  | Json.bool b => some (if b then 1 else 0)
  | Json.str s => pyIntOfChars s.data
  | _ => none

/-- JSON whitespace accepted by `json.loads` between tokens: space, tab,
newline, carriage return (given by character code). -/
def isJsonWs (c : Char) : Bool := [32, 9, 10, 13].contains c.toNat

/-- Skip JSON whitespace. -/
def skipWs (cs : Chars) : Chars := cs.dropWhile isJsonWs

/-- The JSON string escape table as pairs of escape letter and decoded
character, decoded characters given by character code where needed: quote,
backslash, slash, then n, t, r, b, f to newline 10, tab 9, return 13,
backspace 8, form feed 12. -/
def escPairs : List (Char × Char) :=
  [('"', '"'), ('\\', '\\'), ('/', '/'), ('n', Char.ofNat 10), ('t', Char.ofNat 9),
   ('r', Char.ofNat 13), ('b', Char.ofNat 8), ('f', Char.ofNat 12)]

/-- JSON string escapes (the unicode escape backslash-u is not modelled; no
input in this development contains one). -/
def escChar (e : Char) : Option Char :=
  (escPairs.find? (fun p => p.1 == e)).map (fun p => p.2)

/-- Parse the tail of a JSON string literal (after the opening quote),
returning the decoded characters and the remaining input.  Raw control
characters are rejected, as in strict `json.loads`. -/
def parseStrTail : Chars → Option (Chars × Chars)
  | [] => none
  | '"' :: rest => some ([], rest)
  | '\\' :: rest =>
    match rest with
    | [] => none
    | e :: rest2 =>
      match escChar e with
      | some c =>
        match parseStrTail rest2 with
        | some (s, r) => some (c :: s, r)
        | none => none
      | none => none
  | c :: rest =>
    if c.toNat < 32 then none
    else
      match parseStrTail rest with
      | some (s, r) => some (c :: s, r)
      | none => none

/-- Parse a JSON integer numeral (leading zeros rejected, fraction and
exponent markers rejected as unsupported). -/
def parseNum (cs : Chars) : Option (Nat × Chars) :=
  let ds := cs.takeWhile Char.isDigit
  let rest := cs.dropWhile Char.isDigit
  if ds.isEmpty then none
  else if 1 < ds.length ∧ ds.headD '0' = '0' then none
  else
    match rest with
    | '.' :: _ => none
    | 'e' :: _ => none
    | 'E' :: _ => none
    | _ => some (digitsToNat ds, rest)

/-- Parse the members of a JSON object (input positioned after the opening
brace), where `pv` parses a value.  Fuelled by member count. -/
def objBody (pv : Chars → Option (Json × Chars)) : Nat → Chars → Option (List (String × Json) × Chars)
  | 0, _ => none
  | n + 1, cs =>
    match skipWs cs with
    | '"' :: rest =>
      match parseStrTail rest with
      | some (k, r1) =>
        (match skipWs r1 with
         | ':' :: r2 =>
           (match pv r2 with
            | some (v, r3) =>
              (match skipWs r3 with
               | ',' :: r4 =>
                 (match objBody pv n r4 with
                  | some (kvs, r5) => some ((⟨k⟩, v) :: kvs, r5)
                  | none => none)
               | '}' :: r4 => some ([(⟨k⟩, v)], r4)
               | _ => none)
            | none => none)
         | _ => none)
      | none => none
    | _ => none

/-- Parse the elements of a JSON array (input positioned after the opening
bracket), where `pv` parses a value.  Fuelled by element count. -/
def arrBody (pv : Chars → Option (Json × Chars)) : Nat → Chars → Option (List Json × Chars)
  | 0, _ => none
  | n + 1, cs =>
    match pv cs with
    | some (v, r) =>
      match skipWs r with
      | ',' :: r2 =>
        (match arrBody pv n r2 with
         | some (xs, r3) => some (v :: xs, r3)
         | none => none)
      | ']' :: r2 => some ([v], r2)
      | _ => none
    | none => none

/-- Parse one JSON value.  Fuelled by nesting depth. -/
def parseVal : Nat → Chars → Option (Json × Chars)
  | 0, _ => none
  | fuel + 1, cs =>
    match skipWs cs with
    | '{' :: rest =>
      (match skipWs rest with
       | '}' :: r => some (Json.obj [], r)
       | _ =>
         match objBody (parseVal fuel) (rest.length + 1) rest with
         | some (kvs, r) => some (Json.obj kvs, r)
         | none => none)
    | '[' :: rest =>
      (match skipWs rest with
       | ']' :: r => some (Json.arr [], r)
       | _ =>
         match arrBody (parseVal fuel) (rest.length + 1) rest with
         | some (xs, r) => some (Json.arr xs, r)
         | none => none)
    | '"' :: rest =>
      (match parseStrTail rest with
       | some (s, r) => some (Json.str ⟨s⟩, r)
       | none => none)
    | 't' :: 'r' :: 'u' :: 'e' :: r => some (Json.bool true, r)
    | 'f' :: 'a' :: 'l' :: 's' :: 'e' :: r => some (Json.bool false, r)
    | 'n' :: 'u' :: 'l' :: 'l' :: r => some (Json.null, r)
    | '-' :: rest =>
      (match parseNum rest with
       | some (n, r) => some (Json.int (-(n : Int)), r)
       | none => none)
    | c :: rest =>
      if c.isDigit then
        match parseNum (c :: rest) with
        | some (n, r) => some (Json.int (n : Int), r)
        | none => none
      else none
    | [] => none

/-- Python `json.loads`: parse a whole string as one JSON value; trailing
non-whitespace raises (modelled as `none`). -/
def loadsChars (cs : Chars) : Option Json :=
  match parseVal (cs.length + 2) cs with
  | some (v, rest) => if (skipWs rest).isEmpty then some v else none
  | none => none

/-- One pass of Python `re.sub(pat + backslash-s-star, empty, text)` for a
literal pattern `pat`: scan left to right, and at each match delete the
pattern together with the greedy whitespace run that follows it, resuming
after the deleted region.  Fuelled by the input length. -/
def reSubDrop (pat : Chars) : Nat → Chars → Chars
  | 0, cs => cs
  | _ + 1, [] => []
  | fuel + 1, c :: rest =>
    if pat.isPrefixOf (c :: rest) then
      reSubDrop pat fuel (((c :: rest).drop pat.length).dropWhile isPyWs)
    else c :: reSubDrop pat fuel rest

/-- `JSONStructureValidatorTool._clean_raw_output` on character lists:
delete markdown fences, cut at `max(find(lbracket), find(lbrace))`, cut
after `max(rfind(rbracket), rfind(rbrace))`, then strip whitespace. -/
def cleanChars (raw : Chars) : Chars :=
  let c1 := reSubDrop ("```json".data) (raw.length + 1) raw
  let c2 := reSubDrop ("```".data) (c1.length + 1) c1
  let jsonStart := max (pyFind c2 '[') (pyFind c2 '{')
  let c3 := if jsonStart ≠ -1 then c2.drop jsonStart.toNat else c2
  let jsonEnd := max (pyRfind c3 ']') (pyRfind c3 '}')
  let c4 := if jsonEnd ≠ -1 then c3.take (jsonEnd.toNat + 1) else c3
  pyStrip c4

/-- `JSONStructureValidatorTool._clean_raw_output` on Python strings. -/
def _clean_raw_output (raw_output : String) : String := ⟨cleanChars raw_output.data⟩

/-- Follows the words of the spec for TextCleaner (section 4.1), for
comparison with `_clean_raw_output`: delete code fences, trim everything
before the FIRST occurrence of a left bracket or left brace, trim
everything after the last occurrence of a right bracket or right brace,
and strip whitespace. -/
def clean_spec (raw : String) : String :=
  let c1 := reSubDrop ("```json".data) (raw.data.length + 1) raw.data
  let c2 := reSubDrop ("```".data) (c1.length + 1) c1
  let c3 :=
    match c2.findIdx? (fun c => c == '[' || c == '{') with
    | some i => c2.drop i
    | none => c2
  let c4 :=
    match c3.reverse.findIdx? (fun c => c == ']' || c == '}') with
    | some j => c3.take (c3.length - j)
    | none => c3
  ⟨pyStrip c4⟩

/-- A record of the restructure (QA) schema. -/
structure QARecord where
  question : String
  answer : String
  diagram_or_equation : String

/-- A record of the marking schema.  `marks_awarded` is an `Int` because the
JSON path can store any Python int here. -/
structure MarkingRecord where
  question : String
  marks_awarded : Int

/-- The empty current item of `_extract_restructure_from_text`. -/
def emptyQA : QARecord := ⟨"", "", ""⟩

/-- The empty current item of `_extract_marking_from_text`. -/
def emptyMarking : MarkingRecord := ⟨"", 0⟩

/-- Line classification: `line.startswith(quoted question key) or
line.lower().startswith(question)`. -/
def isQuestionLine (line : Chars) : Bool :=
  ("\"question\"".data).isPrefixOf line ||
    ("question".data).isPrefixOf (line.map Char.toLower)

/-- Line classification: `line.startswith(quoted answer key) or
line.lower().startswith(answer)`. -/
def isAnswerLine (line : Chars) : Bool :=
  ("\"answer\"".data).isPrefixOf line ||
    ("answer".data).isPrefixOf (line.map Char.toLower)

/-- Line classification: `line.startswith(quoted diagram key) or the word
diagram occurs in line.lower()`. -/
def isDiagramLine (line : Chars) : Bool :=
  ("\"diagram_or_equation\"".data).isPrefixOf line ||
    containsSub ("diagram".data) (line.map Char.toLower)

/-- Line classification for marks: any of the four keywords occurs in
`line.lower()`. -/
def markKeywordLine (line : Chars) : Bool :=
  containsSub ("marks_awarded".data) (line.map Char.toLower) ||
    containsSub ("marks".data) (line.map Char.toLower) ||
    containsSub ("score".data) (line.map Char.toLower) ||
    containsSub ("points".data) (line.map Char.toLower)

/-- `JSONStructureValidatorTool._extract_value`: take the text after the
first colon (or the whole line when there is no colon), strip whitespace,
strip double quotes, strip single quotes, right-strip commas. -/
def extractValueChars (line : Chars) : Chars :=
  if line.contains ':' then
    rstripChar ','
      (stripChar (Char.ofNat 39) (stripChar '"' (pyStrip ((line.dropWhile (· != ':')).drop 1))))
  else
    rstripChar ',' (stripChar (Char.ofNat 39) (stripChar '"' (pyStrip line)))

/-- First maximal run of decimal digits, if any. -/
def firstDigitRun (cs : Chars) : Option Chars :=
  let r := (cs.dropWhile (fun c => !c.isDigit)).takeWhile Char.isDigit
  if r.isEmpty then none else some r

/-- `JSONStructureValidatorTool._extract_numeric_value`: first run of
digits found by the digit regex, the string `0` when there is none. -/
def _extract_numeric_value (line : Chars) : Chars :=
  match firstDigitRun line with
  | some ds => ds
  | none => "0".data

/-- Line loop of `_extract_restructure_from_text` over the stripped lines,
carrying the current item and the accumulated result. -/
def qaLoop : List Chars → QARecord → List QARecord → List QARecord
  | [], cur, acc => if cur.question ≠ "" then acc ++ [cur] else acc
  | l :: rest, cur, acc =>
    if (pyStrip l).isEmpty then qaLoop rest cur acc
    else if isQuestionLine (pyStrip l) then
      if cur.question ≠ "" then
        qaLoop rest ⟨⟨extractValueChars (pyStrip l)⟩, "", ""⟩ (acc ++ [cur])
      else
        qaLoop rest { cur with question := ⟨extractValueChars (pyStrip l)⟩ } acc
    else if isAnswerLine (pyStrip l) then
      qaLoop rest { cur with answer := ⟨extractValueChars (pyStrip l)⟩ } acc
    else if isDiagramLine (pyStrip l) then
      qaLoop rest { cur with diagram_or_equation := ⟨extractValueChars (pyStrip l)⟩ } acc
    else qaLoop rest cur acc

/-- `JSONStructureValidatorTool._extract_restructure_from_text`. -/
def _extract_restructure_from_text (text : Chars) : List QARecord :=
  qaLoop (splitLines text) emptyQA []

/-- Line loop of `_extract_marking_from_text` over the stripped lines. -/
def markingLoop : List Chars → MarkingRecord → List MarkingRecord → List MarkingRecord
  | [], cur, acc => if cur.question ≠ "" then acc ++ [cur] else acc
  | l :: rest, cur, acc =>
    if (pyStrip l).isEmpty then markingLoop rest cur acc
    else if isQuestionLine (pyStrip l) then
      if cur.question ≠ "" then
        markingLoop rest ⟨⟨extractValueChars (pyStrip l)⟩, 0⟩ (acc ++ [cur])
      else
        markingLoop rest { cur with question := ⟨extractValueChars (pyStrip l)⟩ } acc
    else if markKeywordLine (pyStrip l) then
      markingLoop rest
        { cur with marks_awarded := ((digitsToNat (_extract_numeric_value (pyStrip l)) : Nat) : Int) }
        acc
    else markingLoop rest cur acc

/-- `JSONStructureValidatorTool._extract_marking_from_text`. -/
def _extract_marking_from_text (text : Chars) : List MarkingRecord :=
  markingLoop (splitLines text) emptyMarking []

/-- Lookup in a parsed JSON object, last binding wins (Python dict
semantics for duplicate keys in `json.loads`). -/
def lookupLast : List (String × Json) → String → Option Json
  | [], _ => none
  | p :: rest, k =>
    match lookupLast rest k with
    | some v => some v
    | none => if p.1 = k then some p.2 else none

/-- Python `item.get(key, default)`. -/
def pyGet (kvs : List (String × Json)) (k : String) (dflt : Json) : Json :=
  (lookupLast kvs k).getD dflt

/-- A single quote character as a string, used by the Python `repr` model. -/
def pySQuote : String := String.singleton (Char.ofNat 39)

mutual

/-- Python `repr` of a `json.loads` result (string escaping inside the repr
is not modelled; no theorem evaluates it). -/
def pyRepr : Json → String
  | Json.null => "None"
  | Json.bool true => "True"
  | Json.bool false => "False"
  | Json.int n => toString n
  | Json.str s => pySQuote ++ s ++ pySQuote
  | Json.arr xs => "[" ++ pyReprList xs ++ "]"
  | Json.obj kvs => "\x7b" ++ pyReprObj kvs ++ "\x7d"

/-- Comma-joined reprs of list elements. -/
def pyReprList : List Json → String
  | [] => ""
  | [x] => pyRepr x
  | x :: xs => pyRepr x ++ ", " ++ pyReprList xs

/-- Comma-joined reprs of object members. -/
def pyReprObj : List (String × Json) → String
  | [] => ""
  | [(k, v)] => pySQuote ++ k ++ pySQuote ++ ": " ++ pyRepr v
  | (k, v) :: kvs => pySQuote ++ k ++ pySQuote ++ ": " ++ pyRepr v ++ ", " ++ pyReprObj kvs

end

/-- Python `str(x)` on a parsed JSON value. -/
def pyStr : Json → String
  | Json.str s => s
  | v => pyRepr v

/-- The alias keys consulted for marks, in the fixed source order. -/
def aliasKeys : List String := ["marks_awarded", "marks", "score", "points"]

/-- The marks loop of `_format_marking_output`: walk the candidate keys in
order; a present key whose value `int(...)` accepts ends the loop with that
value; a present key whose value `int(...)` rejects resets the value to 0
and continues; the final value is 0 when no candidate succeeds.  (In the
source, `key in item` guards the access `item[key]`; key presence is
modelled by `lookupLast`.) -/
def marksGo (kvs : List (String × Json)) : List String → Int
  | [] => 0
  | k :: ks =>
    match lookupLast kvs k with
    | none => marksGo kvs ks
    | some v =>
      match pyInt v with
      | some n => n
      | none => marksGo kvs ks

/-- The `marks_awarded` value computed for one element by
`_format_marking_output`. -/
def marksValue (kvs : List (String × Json)) : Int := marksGo kvs aliasKeys

/-- `if not isinstance(data, list): data = [data]`. -/
def asList : Json → List Json
  | Json.arr xs => xs
  | v => [v]

/-- The formatted item built for one map element by
`_format_restructure_output`. -/
def formatQAItem (kvs : List (String × Json)) : Json :=
  Json.obj [("question", Json.str (pyStr (pyGet kvs "question" (Json.str "")))),
            ("answer", Json.str (pyStr (pyGet kvs "answer" (Json.str "")))),
            ("diagram_or_equation", Json.str (pyStr (pyGet kvs "diagram_or_equation" (Json.str ""))))]

/-- QA record as the JSON object the engine serializes. -/
def qaToJson (r : QARecord) : Json :=
  Json.obj [("question", Json.str r.question), ("answer", Json.str r.answer),
            ("diagram_or_equation", Json.str r.diagram_or_equation)]

/-- Marking record as the JSON object the engine serializes. -/
def markingToJson (r : MarkingRecord) : Json :=
  Json.obj [("question", Json.str r.question), ("marks_awarded", Json.int r.marks_awarded)]

/-- `JSONStructureValidatorTool._format_restructure_output`, returning the
JSON value that `json.dumps` serializes: on a successful parse, the list of
formatted map elements (non-map elements skipped); on a parse failure
(`json.JSONDecodeError`), the text-fallback records. -/
def _format_restructure_output (cleaned : Chars) : Json :=
  match loadsChars cleaned with
  | some data =>
    Json.arr ((asList data).filterMap (fun item =>
      match item with
      | Json.obj kvs => some (formatQAItem kvs)
      | _ => none))
  | none => Json.arr ((_extract_restructure_from_text cleaned).map qaToJson)

/-- `JSONStructureValidatorTool._format_marking_output`, returning the JSON
value that `json.dumps` serializes. -/
def _format_marking_output (cleaned : Chars) : Json :=
  match loadsChars cleaned with
  | some data =>
    Json.arr ((asList data).filterMap (fun item =>
      match item with
      | Json.obj kvs =>
        some (Json.obj [("question", Json.str (pyStr (pyGet kvs "question" (Json.str "")))),
                        ("marks_awarded", Json.int (marksValue kvs))])
      | _ => none))
  | none => Json.arr ((_extract_marking_from_text cleaned).map markingToJson)

/-- `JSONStructureValidatorTool._run`, returning the JSON value the tool
serializes.  The try/except of the source reduces to the unknown-type
branch: for the two recognized output types every helper is total, so the
only reachable exception is the explicit `ValueError` raised for an unknown
`output_type`, and the handler then takes its non-restructure arm, the
marking-style error record. -/
def _run (raw_output output_type : String) : Json :=
  if pyLower output_type = "restructure" then
    _format_restructure_output (cleanChars raw_output.data)
  else if pyLower output_type = "marking" then
    _format_marking_output (cleanChars raw_output.data)
  else
    Json.arr [Json.obj [("question", Json.str "Error in processing"),
                        ("marks_awarded", Json.int 0)]]

/-- Characters other than braces, the regex class excluding both braces. -/
def braceFree (c : Char) : Bool := c != '{' && c != '}'

/-- Star part of the fixed-depth object regex of
`FixedQAExtractor.extract_json_from_text` (method 4): after the leading
brace and brace-free run, repeatedly consume a depth-one group
(brace, brace-free run, closing brace, brace-free run) and finally the
closing brace.  Any deeper brace makes the whole match fail, exactly as
the backtracking regex does. -/
def objStar : Nat → Chars → Option (Chars × Chars)
  | 0, _ => none
  | fuel + 1, cs =>
    match cs with
    | '}' :: rest => some (['}'], rest)
    | '{' :: rest =>
      (match rest.dropWhile braceFree with
       | '}' :: r2 =>
         (match objStar fuel (r2.dropWhile braceFree) with
          | some (tail, rest2) =>
            some ('{' :: (rest.takeWhile braceFree) ++ '}' :: (r2.takeWhile braceFree) ++ tail, rest2)
          | none => none)
       | _ => none)
    | _ => none

/-- Attempt of the object regex at the current position. -/
def objMatchAt (cs : Chars) : Option (Chars × Chars) :=
  match cs with
  | '{' :: rest =>
    (match objStar ((rest.dropWhile braceFree).length + 1) (rest.dropWhile braceFree) with
     | some (tail, rest2) => some ('{' :: (rest.takeWhile braceFree) ++ tail, rest2)
     | none => none)
  | _ => none

/-- `re.findall` of the object regex: leftmost non-overlapping matches. -/
def objFindall : Nat → Chars → List Chars
  | 0, _ => []
  | _ + 1, [] => []
  | fuel + 1, c :: rest =>
    match objMatchAt (c :: rest) with
    | some (m, after) => m :: objFindall fuel after
    | none => objFindall fuel rest

/-- Method 4 of `FixedQAExtractor.extract_json_from_text`: collect every
regex match that `json.loads` accepts as a map. -/
def objectScan (text : Chars) : List Json :=
  (objFindall (text.length + 1) text).filterMap (fun m =>
    match loadsChars m with
    | some (Json.obj kvs) => some (Json.obj kvs)
    | _ => none)



/-- Helper: `_format_restructure_output` always produces a JSON array. -/
theorem format_restructure_isArr (cs : Chars) :
    ∃ l, _format_restructure_output cs = Json.arr l := by
  unfold _format_restructure_output
  cases h : loadsChars cs
  · exact ⟨_, rfl⟩
  · exact ⟨_, rfl⟩

/-- Helper: `_format_marking_output` always produces a JSON array. -/
theorem format_marking_isArr (cs : Chars) :
    ∃ l, _format_marking_output cs = Json.arr l := by
  unfold _format_marking_output
  cases h : loadsChars cs
  · exact ⟨_, rfl⟩
  · exact ⟨_, rfl⟩

/-- Helper: on a JSON parse failure the restructure formatter returns the
text-fallback records. -/
theorem format_restructure_fallback (cs : Chars) (h : loadsChars cs = none) :
    _format_restructure_output cs
      = Json.arr ((_extract_restructure_from_text cs).map qaToJson) := by
  unfold _format_restructure_output
  rw [h]

/-- Helper: on a JSON parse failure the marking formatter returns the
text-fallback records. -/
theorem format_marking_fallback (cs : Chars) (h : loadsChars cs = none) :
    _format_marking_output cs
      = Json.arr ((_extract_marking_from_text cs).map markingToJson) := by
  unfold _format_marking_output
  rw [h]

/-- Helper: every record produced by the marking text-fallback loop has a
non-negative mark, provided the current item and accumulator do. -/
theorem markingLoop_marks_nonneg (lines : List Chars) :
    ∀ cur acc, 0 ≤ cur.marks_awarded → (∀ r ∈ acc, 0 ≤ r.marks_awarded) →
      ∀ r ∈ markingLoop lines cur acc, 0 ≤ r.marks_awarded := by
  induction lines with
  | nil =>
    intro cur acc hc ha r hr
    unfold markingLoop at hr
    split at hr
    · rcases List.mem_append.1 hr with h | h
      · exact ha r h
      · rw [List.mem_singleton] at h; subst h; exact hc
    · exact ha r hr
  | cons l rest ih =>
    intro cur acc hc ha r hr
    unfold markingLoop at hr
    split at hr
    · exact ih cur acc hc ha r hr
    · split at hr
      · split at hr
        · refine ih _ _ (le_refl 0) ?_ r hr
          intro x hx
          rcases List.mem_append.1 hx with h | h
          · exact ha x h
          · rw [List.mem_singleton] at h; subst h; exact hc
        · refine ih _ _ ?_ ha r hr
          exact hc
      · split at hr
        · refine ih _ _ ?_ ha r hr
          exact Int.natCast_nonneg _
        · exact ih cur acc hc ha r hr

/-- Helper: the marks loop returns the value of the first candidate key
that is present and accepted by Python `int`, and 0 otherwise. -/
theorem marksGo_eq_firstCoercible (kvs : List (String × Json)) (keys : List String) :
    marksGo kvs keys
      = (keys.filterMap (fun k => (lookupLast kvs k).bind pyInt)).headD 0 := by
  induction keys with
  | nil => rfl
  | cons k ks ih =>
    unfold marksGo
    rw [List.filterMap_cons]
    cases h : lookupLast kvs k with
    | none => simpa using ih
    | some v =>
      cases h2 : pyInt v with
      | none => simpa [h2] using ih
      | some n => simp [h2]

/-- Claim C1: for every input string and every valid schema kind
(restructure or marking, case-insensitive), `_run` returns without raising,
and the value it serializes is a JSON array. -/
theorem run_returns_json_array (raw_output output_type : String)
    (_h : pyLower output_type = "restructure" ∨ pyLower output_type = "marking") :
    ∃ l, _run raw_output output_type = Json.arr l := by
  unfold _run
  split
  · exact format_restructure_isArr _
  · split
    · exact format_marking_isArr _
    · exact ⟨_, rfl⟩

/-- Claim C1 witness: the theorem applied at a concrete input. -/
theorem run_returns_json_array_witness :
    (pyLower "Restructure" = "restructure" ∨ pyLower "Restructure" = "marking") ∧
      ∃ l, _run "no json here at all" "Restructure" = Json.arr l :=
  ⟨Or.inl rfl, run_returns_json_array "no json here at all" "Restructure" (Or.inl rfl)⟩

/-- Claim C2 counterexample: the empty-string input yields the empty array
under both schemas, not a one-element array whose question field says
Error in processing. -/
theorem empty_input_yields_empty_array :
    _run "" "restructure" = Json.arr [] ∧ _run "" "marking" = Json.arr [] := ⟨rfl, rfl⟩

/-- Claim C2 (amended): when JSON parsing of the cleaned input fails and
the text fallback yields zero records, the engine returns the empty array,
not an exception; the Error-in-processing record belongs to the exception
path only, which the two valid schema kinds never reach. -/
theorem total_failure_yields_empty_array (s : String)
    (h1 : loadsChars (cleanChars s.data) = none)
    (h2 : _extract_restructure_from_text (cleanChars s.data) = [])
    (h3 : _extract_marking_from_text (cleanChars s.data) = []) :
    _run s "restructure" = Json.arr [] ∧ _run s "marking" = Json.arr [] := by
  constructor
  · unfold _run
    rw [if_pos (show pyLower "restructure" = "restructure" by decide)]
    rw [format_restructure_fallback _ h1, h2]
    rfl
  · unfold _run
    rw [if_neg (show ¬pyLower "marking" = "restructure" by decide)]
    rw [if_pos (show pyLower "marking" = "marking" by decide)]
    rw [format_marking_fallback _ h1, h3]
    rfl

/-- Claim C2 witness: the empty string satisfies the hypotheses of the
amended theorem. -/
theorem total_failure_yields_empty_array_witness :
    loadsChars (cleanChars ("" : String).data) = none ∧
    _extract_restructure_from_text (cleanChars ("" : String).data) = [] ∧
    _extract_marking_from_text (cleanChars ("" : String).data) = [] ∧
    (_run "" "restructure" = Json.arr [] ∧ _run "" "marking" = Json.arr []) :=
  ⟨rfl, rfl, rfl, total_failure_yields_empty_array "" rfl rfl rfl⟩

/-- Claim C3: the code evaluated at a failing input.  On the input
consisting of x, left bracket, y, left brace, z, right brace, right
bracket, the cleaner of the source cuts at position
max of find-left-bracket and find-left-brace, which is the LATER of the two
first occurrences, keeping only from the left brace onward; the cleaner
worded as in the spec keeps from the first opening bracket onward. -/
theorem clean_cuts_at_later_bracket :
    _clean_raw_output "x[y\x7bz\x7d]" = "\x7bz\x7d]" ∧
      clean_spec "x[y\x7bz\x7d]" = "[y\x7bz\x7d]" := ⟨rfl, rfl⟩

/-- Claim C4: the code evaluated at a failing input: the compact JSON
encoding of a one-record QA array runs through clean, locate and normalize
to the empty array rather than back to the record, because the cleaner
drops the leading array bracket and the mangled text no longer parses. -/
theorem roundtrip_fails_on_encoded_records :
    _run "[\x7b\"question\":\"Q\",\"answer\":\"A\",\"diagram_or_equation\":\"\"\x7d]" "restructure"
      = Json.arr [] := rfl

/-- Claim C5: the code evaluated at the input of the claim: prose-wrapped
marking JSON yields the empty array, not the claimed one-element array. -/
theorem prose_wrapped_marking_yields_empty :
    _run "Here is the result: [\x7b\"question\":\"Q\",\"marks_awarded\":5\x7d] Hope that helps!"
      "marking" = Json.arr [] := rfl

/-- Claim C6 counterexample: the marking element with question Q2 and
score stated as 7 points normalizes to marks_awarded 0, not 7, because the
JSON path coerces with Python int rather than the digit-run extractor. -/
theorem score_with_units_yields_zero :
    _run "\x7b\"question\":\"Q2\",\"score\":\"7 points\"\x7d" "marking"
      = Json.arr [Json.obj [("question", Json.str "Q2"), ("marks_awarded", Json.int 0)]] := rfl

/-- Claim C6 (amended): marks are resolved by consulting the candidate keys
in the fixed order marks_awarded, marks, score, points, taking the first
present key whose value Python int accepts (the whole string must be an
integer literal; digit-run extraction is used only on the text-fallback
path), with 0 when no candidate is present and accepted; concretely, a
score of 7 as a pure numeral yields 7, also when a poorer candidate such as
marks appears before it, while a score of 7 points yields 0. -/
theorem marks_alias_resolution :
    (∀ kvs : List (String × Json),
        marksValue kvs = (aliasKeys.filterMap (fun k => (lookupLast kvs k).bind pyInt)).headD 0) ∧
    _run "\x7b\"question\":\"Q2\",\"score\":\"7 points\"\x7d" "marking"
      = Json.arr [Json.obj [("question", Json.str "Q2"), ("marks_awarded", Json.int 0)]] ∧
    _run "\x7b\"question\":\"Q2\",\"score\":\"7\",\"points\":\"9\"\x7d" "marking"
      = Json.arr [Json.obj [("question", Json.str "Q2"), ("marks_awarded", Json.int 7)]] ∧
    _run "\x7b\"question\":\"Q2\",\"marks\":\"bad\",\"score\":\"7\"\x7d" "marking"
      = Json.arr [Json.obj [("question", Json.str "Q2"), ("marks_awarded", Json.int 7)]] :=
  ⟨fun kvs => marksGo_eq_firstCoercible kvs aliasKeys, rfl, rfl, rfl⟩

/-- Claim C7 counterexample: a marking element whose marks_awarded field is
the integer minus five is emitted with marks_awarded minus five, a negative
value, so the non-negativity invariant fails on the JSON path. -/
theorem negative_marks_pass_through :
    _run "\x7b\"question\":\"Q\",\"marks_awarded\":-5\x7d" "marking"
      = Json.arr [Json.obj [("question", Json.str "Q"), ("marks_awarded", Json.int (-5))]] := rfl

/-- Claim C7 (amended): on the text-fallback path every emitted marking
record has a non-negative marks_awarded (the digit-run extractor cannot
produce a sign); on the JSON path a negative source integer passes through
unchanged, as the concrete run in the second conjunct shows. -/
theorem marking_fallback_marks_nonneg :
    (∀ text : Chars,
        (_extract_marking_from_text text).all (fun r => decide (0 ≤ r.marks_awarded)) = true) ∧
    _run "\x7b\"question\":\"Qn\",\"marks_awarded\":-5\x7d" "marking"
      = Json.arr [Json.obj [("question", Json.str "Qn"), ("marks_awarded", Json.int (-5))]] := by
  constructor
  · intro text
    rw [List.all_eq_true]
    intro r hr
    rw [decide_eq_true_eq]
    exact markingLoop_marks_nonneg (splitLines text) emptyMarking []
      (le_refl 0) (fun x hx => absurd hx (List.not_mem_nil x)) r hr
  · rfl

/-- Claim C8: the code evaluated at a failing input.  The method-4 object
regex of the source is fixed-depth: on a text that is a single object with
two levels of nested objects inside it, the scan does not collect the
top-level object; it collects the depth-one inner object instead. -/
theorem object_scan_misses_nested_object :
    objectScan ("\x7b\"a\":\x7b\"b\":\x7b\"c\":1\x7d\x7d\x7d".data)
      = [Json.obj [("b", Json.obj [("c", Json.int 1)])]] := rfl

/-- Claim C9: the plain-text question-and-answer input with no JSON, under
the restructure schema, yields exactly the claimed one-element array. -/
theorem fallback_qa_example :
    _run "Question: What is 2+2?\nAnswer: 4" "restructure"
      = Json.arr [Json.obj [("question", Json.str "What is 2+2?"), ("answer", Json.str "4"),
                            ("diagram_or_equation", Json.str "")]] := rfl

/-- Claim C10: for every input string and every output type that lowers to
neither restructure nor marking, `_run` returns the marking-style
one-element error array without raising. -/
theorem run_unknown_output_type (raw_output output_type : String)
    (h1 : pyLower output_type ≠ "restructure") (h2 : pyLower output_type ≠ "marking") :
    _run raw_output output_type
      = Json.arr [Json.obj [("question", Json.str "Error in processing"),
                            ("marks_awarded", Json.int 0)]] := by
  unfold _run
  rw [if_neg h1, if_neg h2]

/-- Claim C10 witness: the theorem applied at a concrete input. -/
theorem run_unknown_output_type_witness :
    pyLower "grade" ≠ "restructure" ∧ pyLower "grade" ≠ "marking" ∧
      _run "whatever" "grade"
        = Json.arr [Json.obj [("question", Json.str "Error in processing"),
                              ("marks_awarded", Json.int 0)]] :=
  ⟨by decide, by decide, run_unknown_output_type "whatever" "grade" (by decide) (by decide)⟩
